import Mathlib

/-!
Verification of the A2A/JSON-RPC bridge.

The development shallowly embeds the two chat endpoint implementations
(`function_app.py`, a serverless-function style handler, and
`local_agent.py`, a standalone HTTP-service style handler) together with
the discovery handlers.  JSON values are modelled by the inductive `Json`;
Python `dict.get`, key membership, truthiness and iteration are modelled
explicitly.  Remote assistant calls are modelled by a `RemoteEnv` record
supplying the outcome of each authenticated HTTP call; each chat function
returns the HTTP outcome together with the trace of remote operations it
performed, or `none` when the polling loop never observes a terminal
status within the supplied status trace.
-/

/-- Model of a parsed JSON value (as produced by `req.get_json()` /
`await request.json()`). -/
inductive Json where
  | null
  | bool (b : Bool)
  | num (n : Int)
  | str (s : String)
  | arr (elems : List Json)
  | obj (fields : List (String × Json))
deriving Repr

/-- Python `isinstance(x, dict)`. -/
def Json.isObj : Json → Bool
  | .obj _ => true
  | _ => false

/-- Python `d.get(k)` on a dict: `some v` when the key is present, `none`
otherwise; on a non-dict there is no `.get`, callers model the
`AttributeError` separately. -/
def Json.get? : Json → String → Option Json
  | .obj fs, k => (fs.find? (fun f => f.1 == k)).map (fun f => f.2)
  | _, _ => none

/-- Python `k in d` (dict key membership). -/
def Json.hasKey (j : Json) (k : String) : Bool := (j.get? k).isSome

/-- Python `x == "s"` for a JSON value `x`: true exactly when `x` is the
string `s` (comparisons across JSON types are `False` in Python). -/
def Json.eqStr (j : Json) (s : String) : Bool :=
  match j with
  | .str t => t == s
  | _ => false

/-- Python `d.get(k) == "s"`: the value at `k` exists and is the string
`s` (an absent key yields `None`, which compares unequal). -/
def Json.getStrEq (j : Json) (k s : String) : Bool :=
  match j.get? k with
  | some v => v.eqStr s
  | none => false

/-- Python truthiness (`bool(x)`). -/
def Json.truthy : Json → Bool
  | .null => false
  | .bool b => b
  | .num n => n != 0
  | .str s => !(s == "")
  | .arr xs => !xs.isEmpty
  | .obj fs => !fs.isEmpty

/-- Python iteration `for x in v`: lists yield their elements, strings
their characters, dicts their keys; other values raise `TypeError`
(modelled as `none`). -/
def Json.iterate? : Json → Option (List Json)
  | .arr xs => some xs
  | .str s => some (s.toList.map (fun c => .str (String.mk [c])))
  | .obj fs => some (fs.map (fun f => .str f.1))
  | _ => none

mutual

/-- Python `repr()` of a JSON value, used by f-string interpolation of
containers. -/
def Json.pyRepr : Json → String
  | .null => "None"
  | .bool true => "True"
  | .bool false => "False"
  | .num n => toString n
  | .str s => "\x27" ++ s ++ "\x27"
  | .arr xs => "[" ++ Json.pyReprArr xs ++ "]"
  | .obj fs => "\x7b" ++ Json.pyReprObj fs ++ "\x7d"

/-- Comma-separated `repr` of list elements. -/
def Json.pyReprArr : List Json → String
  | [] => ""
  | [x] => x.pyRepr
  | x :: y :: xs => x.pyRepr ++ ", " ++ Json.pyReprArr (y :: xs)

/-- Comma-separated `repr` of dict entries. -/
def Json.pyReprObj : List (String × Json) → String
  | [] => ""
  | [f] => "\x27" ++ f.1 ++ "\x27: " ++ f.2.pyRepr
  | f :: g :: fs => "\x27" ++ f.1 ++ "\x27: " ++ f.2.pyRepr ++ ", " ++ Json.pyReprObj (g :: fs)

end

/-- Python `str()` / f-string interpolation of a JSON value. -/
def Json.pyDisplay : Json → String
  | .str s => s
  | j => j.pyRepr

/-- An HTTP response: status code, JSON body and headers. -/
structure HttpResp where
  status : Nat
  body : Json
  headers : List (String × String)
deriving Repr

/-- Outcome of a request handler: either a constructed response, or an
unhandled exception propagating to the hosting framework (which surfaces
it as a non-200 error page). -/
inductive Outcome where
  | resp (r : HttpResp)
  | crash (exc : String)
deriving Repr

/-- Headers set on every chat response in both implementations
(`mimetype="application/json"` plus the permissive CORS header). -/
def chatHeaders : List (String × String) :=
  [("Content-Type", "application/json"), ("Access-Control-Allow-Origin", "*")]

/-- The fixed assistant identifier (`ASSISTANT_ID` in both source files). -/
def ASSISTANT_ID : String := "asst_zQ8ANX9CJfElxVlHKEKiLa5P"

/-- A message returned by the remote `GET .../messages` call:
its `role` and the text values of its `content` blocks
(`m["content"][i]["text"]["value"]`). -/
structure RemoteMsg where
  role : String
  contentTexts : List String
deriving Repr, BEq

/-- Outcomes of the remote assistant API calls consumed during one chat
turn.  `Except.error e` models `call_api` raising on a non-success HTTP
status, with `e` the exception text (`str(e)`).  `runStatuses` lists the
statuses the successive `get_run_status` calls will report. -/
structure RemoteEnv where
  createThread : Except String String
  postMessage : Except String Unit
  startRun : Except String String
  runStatuses : List (Except String String)
  listMessages : Except String (List RemoteMsg)

/-- One remote assistant API call, recorded in the order performed. -/
inductive RemoteOp where
  | createThread
  | postMessage (text : Json)
  | startRun (assistantId : String)
  | getRunStatus
  | listMessages
deriving Repr

/-- How the polling loop ended. -/
inductive PollOutcome where
  | completed
  | runFailed (status : String)
  | httpFailed (msg : String)
deriving Repr, BEq

/-- Result of the polling loop: how it ended, how many `get_run_status`
calls it made, and the total time slept in tenths of a second (each
`time.sleep(1.5)` contributes 15). -/
structure PollResult where
  outcome : PollOutcome
  polls : Nat
  sleepTenths : Nat
deriving Repr, BEq

/-- The `while True` polling loop of `function_app.chat`
(src/function_app.py lines 159-165): poll the run status; stop on
`"completed"`; raise `RuntimeError(f"Run {status}")` on `"failed"` or
`"cancelled"`; otherwise sleep 1.5 seconds and poll again.  Returns
`none` when the supplied status trace is exhausted without a terminal
observation (the loop would still be running). -/
def pollRun_fa : List (Except String String) → Option PollResult
  | [] => none
  | .error e :: _ => some ⟨.httpFailed e, 1, 0⟩
  | .ok s :: rest =>
    if s == "completed" then some ⟨.completed, 1, 0⟩
    else if s == "failed" || s == "cancelled" then some ⟨.runFailed s, 1, 0⟩
    else
      match pollRun_fa rest with
      | none => none
      | some r => some ⟨r.outcome, r.polls + 1, r.sleepTenths + 15⟩

/-- The `while True` polling loop of `local_agent.chat`
(src/local_agent.py lines 171-178); textually the same loop as in
`function_app.chat`. -/
def pollRun_la : List (Except String String) → Option PollResult
  | [] => none
  | .error e :: _ => some ⟨.httpFailed e, 1, 0⟩
  | .ok s :: rest =>
    if s == "completed" then some ⟨.completed, 1, 0⟩
    else if s == "failed" || s == "cancelled" then some ⟨.runFailed s, 1, 0⟩
    else
      match pollRun_la rest with
      | none => none
      | some r => some ⟨r.outcome, r.polls + 1, r.sleepTenths + 15⟩

/-- Selection of the reply text from the listed messages (both files):
`next((m for m in messages["data"] if m["role"] == "assistant"), None)`
followed by `reply_msg["content"][0]["text"]["value"] if reply_msg else
"No reply"`; an assistant message with empty `content` raises
`IndexError("list index out of range")`, which the surrounding
`except Exception` turns into an error. -/
def replyFromMessages (data : List RemoteMsg) : Except String String :=
  match data.find? (fun m => m.role == "assistant") with
  | some m =>
    match m.contentTexts with
    | [] => .error "list index out of range"
    | t :: _ => .ok t
  | none => .ok "No reply"

/-- The remote orchestration of `function_app.chat` (src/function_app.py
lines 148-169): create thread, post the user text, start a run, poll to a
terminal status, list messages and select the assistant reply.  The
result pairs the reply (or the text of the first exception raised) with
the trace of remote calls performed; `none` models the polling loop
never terminating. -/
def runRemote_fa (userText : Json) (env : RemoteEnv) :
    Option (Except String String × List RemoteOp) :=
  match env.createThread with
  | .error e => some (.error e, [.createThread])
  | .ok _tid =>
    match env.postMessage with
    | .error e => some (.error e, [.createThread, .postMessage userText])
    | .ok _ =>
      match env.startRun with
      | .error e =>
        some (.error e, [.createThread, .postMessage userText, .startRun ASSISTANT_ID])
      | .ok _rid =>
        match pollRun_fa env.runStatuses with
        | none => none
        | some pr =>
          let pre : List RemoteOp :=
            [.createThread, .postMessage userText, .startRun ASSISTANT_ID]
              ++ List.replicate pr.polls .getRunStatus
          match pr.outcome with
          | .httpFailed e => some (.error e, pre)
          | .runFailed s => some (.error ("Run " ++ s), pre)
          | .completed =>
            match env.listMessages with
            | .error e => some (.error e, pre ++ [.listMessages])
            | .ok data => some (replyFromMessages data, pre ++ [.listMessages])

/-- The remote orchestration of `local_agent.chat` (src/local_agent.py
lines 160-182); textually the same sequence as in `function_app.chat`. -/
def runRemote_la (userText : Json) (env : RemoteEnv) :
    Option (Except String String × List RemoteOp) :=
  match env.createThread with
  | .error e => some (.error e, [.createThread])
  | .ok _tid =>
    match env.postMessage with
    | .error e => some (.error e, [.createThread, .postMessage userText])
    | .ok _ =>
      match env.startRun with
      | .error e =>
        some (.error e, [.createThread, .postMessage userText, .startRun ASSISTANT_ID])
      | .ok _rid =>
        match pollRun_la env.runStatuses with
        | none => none
        | some pr =>
          let pre : List RemoteOp :=
            [.createThread, .postMessage userText, .startRun ASSISTANT_ID]
              ++ List.replicate pr.polls .getRunStatus
          match pr.outcome with
          | .httpFailed e => some (.error e, pre)
          | .runFailed s => some (.error ("Run " ++ s), pre)
          | .completed =>
            match env.listMessages with
            | .error e => some (.error e, pre ++ [.listMessages])
            | .ok data => some (replyFromMessages data, pre ++ [.listMessages])

/-- The text-extraction loop of `function_app.chat` (src/function_app.py
lines 136-141): `user_text` starts as `""`; the first part that is a
dict, has `"type"` equal to `"text"` and contains a `"text"` key sets
`user_text` to that part's `"text"` value (whatever it is, empty
included) and breaks the loop. -/
def extractText_fa : List Json → Json
  | [] => .str ""
  | p :: rest =>
    if p.isObj && p.getStrEq "type" "text" && p.hasKey "text"
    then (p.get? "text").getD .null
    else extractText_fa rest

/-- The text-extraction loop of `local_agent.chat` (src/local_agent.py
lines 147-151): `user_text` starts as `""`; the first part with
`part.get("kind") == "text"` and truthy `part.get("text")` sets
`user_text` to `part["text"]` and breaks.  There is no `isinstance`
guard, so a non-dict part raises `AttributeError` at `part.get`. -/
def extractText_la : List Json → Except String Json
  | [] => .ok (.str "")
  | p :: rest =>
    if !p.isObj then .error "AttributeError"
    else if p.getStrEq "kind" "text" && ((p.get? "text").getD .null).truthy
    then .ok ((p.get? "text").getD .null)
    else extractText_la rest

/-- `_jsonrpc_error` / `jsonrpc_error` response body (src/function_app.py
lines 83-88, src/local_agent.py lines 71-72). -/
def jsonrpcErrorBody (code : Int) (message : String) (reqId : Json) : Json :=
  .obj [("jsonrpc", .str "2.0"),
        ("error", .obj [("code", .num code), ("message", .str message)]),
        ("id", reqId)]

/-- A 200 response carrying a JSON-RPC error envelope, with the headers
both implementations attach. -/
def errOut (code : Int) (message : String) (reqId : Json) : Outcome :=
  .resp ⟨200, jsonrpcErrorBody code message reqId, chatHeaders⟩

/-- The success envelope of `function_app.chat` (lines 96-107 and
176-183): `_jsonrpc_success` applied to the `a2a_result` wrapper, which
itself nests the assistant message under a second `"result"` key. -/
def successBody_fa (replyText : String) (reqId : Json) : Json :=
  .obj [("jsonrpc", .str "2.0"),
        ("result", .obj [("result",
          .obj [("role", .str "assistant"),
                ("parts", .arr [.obj [("type", .str "text"),
                                      ("text", .str replyText)]])])]),
        ("id", reqId)]

/-- The success envelope of `local_agent.chat` (lines 192-214): a task
object with fresh `task_id` / `message_id` identifiers and a context id
taken from the inbound message when truthy, fresh otherwise. -/
def successBody_la (replyText : String) (reqId contextId : Json)
    (taskId messageId : String) : Json :=
  .obj [("jsonrpc", .str "2.0"),
        ("result", .obj [("kind", .str "task"),
                         ("id", .str taskId),
                         ("contextId", contextId),
                         ("status", .str "completed"),
                         ("messages", .arr [.obj [
                           ("role", .str "assistant"),
                           ("parts", .arr [.obj [("kind", .str "text"),
                                                 ("text", .str replyText)]]),
                           ("messageId", .str messageId)]])]),
        ("id", reqId)]

/-- `function_app.chat` (src/function_app.py lines 112-183).  `body` is
the outcome of `req.get_json()` (`none` when parsing raised).  The
result pairs the HTTP outcome with the trace of remote calls performed;
`none` models the polling loop never terminating.  A `crash` outcome is
an exception escaping the handler (`AttributeError` on `.get` of a
non-dict, `TypeError` iterating a non-iterable), surfaced by the hosting
framework as a non-200 error. -/
def chat_fa (body : Option Json) (env : RemoteEnv) :
    Option (Outcome × List RemoteOp) :=
  match body with
  | none => some (errOut (-32700) "Parse error" .null, [])
  | some payload =>
    if !payload.isObj then
      some (errOut (-32600) "Invalid Request" .null, [])
    else if !payload.getStrEq "jsonrpc" "2.0" then
      some (errOut (-32600) "Invalid JSON-RPC version" .null, [])
    else if !(payload.hasKey "method" && payload.hasKey "id") then
      some (errOut (-32600) "Missing method or id" .null, [])
    else
      let method := (payload.get? "method").getD .null
      let requestId := (payload.get? "id").getD .null
      let params := (payload.get? "params").getD (.obj [])
      if !(method.eqStr "sendMessage" || method.eqStr "message/send") then
        some (errOut (-32601) ("Method not found: " ++ method.pyDisplay) requestId, [])
      else if !params.isObj then
        some (.crash "AttributeError", [])
      else
        let message := (params.get? "message").getD (.obj [])
        if !message.isObj then
          some (.crash "AttributeError", [])
        else
          match ((message.get? "parts").getD (.arr [])).iterate? with
          | none => some (.crash "TypeError", [])
          | some partsList =>
            let userText := extractText_fa partsList
            if !userText.truthy then
              some (errOut (-32602) "Invalid params: no valid text part" requestId, [])
            else
              match runRemote_fa userText env with
              | none => none
              | some (.error e, tr) => some (errOut (-32000) e requestId, tr)
              | some (.ok replyText, tr) =>
                some (.resp ⟨200, successBody_fa replyText requestId, chatHeaders⟩, tr)

/-- `local_agent.chat` (src/local_agent.py lines 125-219).  `body` is the
outcome of `await request.json()` (`none` when parsing raised); `taskId`,
`messageId` and `freshContextId` stand for the `uuid.uuid4()` draws of
the success path.  A non-dict payload crashes at `payload.get`, before
any validation. -/
def chat_la (body : Option Json) (env : RemoteEnv)
    (taskId messageId freshContextId : String) :
    Option (Outcome × List RemoteOp) :=
  match body with
  | none => some (errOut (-32700) "Parse error" .null, [])
  | some payload =>
    if !payload.isObj then
      some (.crash "AttributeError", [])
    else if !payload.getStrEq "jsonrpc" "2.0" then
      some (errOut (-32600) "Invalid JSON-RPC version"
        ((payload.get? "id").getD .null), [])
    else if !(((payload.get? "method").getD .null).eqStr "message/send"
        || ((payload.get? "method").getD .null).eqStr "sendMessage") then
      some (errOut (-32601)
        ("Method not found: " ++ ((payload.get? "method").getD .null).pyDisplay)
        ((payload.get? "id").getD .null), [])
    else
      let reqId := (payload.get? "id").getD .null
      let params := (payload.get? "params").getD (.obj [])
      if !params.isObj then
        some (.crash "AttributeError", [])
      else
        let message := (params.get? "message").getD (.obj [])
        if !message.isObj then
          some (.crash "AttributeError", [])
        else
          match ((message.get? "parts").getD (.arr [])).iterate? with
          | none => some (.crash "TypeError", [])
          | some partsList =>
            match extractText_la partsList with
            | .error exc => some (.crash exc, [])
            | .ok userText =>
              if !userText.truthy then
                some (errOut (-32602) "No valid text part" reqId, [])
              else
                match runRemote_la userText env with
                | none => none
                | some (.error e, tr) => some (errOut (-32000) e reqId, tr)
                | some (.ok replyText, tr) =>
                  let contextId :=
                    if ((message.get? "contextId").getD .null).truthy
                    then (message.get? "contextId").getD .null
                    else .str freshContextId
                  some (.resp ⟨200,
                    successBody_la replyText reqId contextId taskId messageId,
                    chatHeaders⟩, tr)

/-- The static Agent Card of `function_app.get_agent_card`
(src/function_app.py lines 36-56). -/
def agentCard_fa : Json :=
  .obj [("name", .str "Capital Agent"),
        ("description", .str "Answers capital-city questions for any country"),
        ("version", .str "1.0.0"),
        ("url", .str "https://func-a2a5055-a6fufrexfuaed0f7.eastus2-01.azurewebsites.net/api/chat"),
        ("preferredTransport", .str "JSONRPC"),
        ("protocolVersion", .str "0.3.0"),
        ("capabilities", .obj [("streaming", .bool true)]),
        ("defaultInputModes", .arr [.str "text"]),
        ("defaultOutputModes", .arr [.str "text"]),
        ("skills", .arr [.obj [
          ("id", .str "capital_query"),
          ("name", .str "capital_query"),
          ("description", .str "Answers capital-city questions"),
          ("inputModes", .arr [.str "text"]),
          ("outputModes", .arr [.str "text"]),
          ("tags", .arr [.str "capital", .str "country"])]])]

/-- The static Agent Card of `local_agent.get_agent_card`
(src/local_agent.py lines 79-99); identical to the serverless one except
for the `url` field. -/
def agentCard_la : Json :=
  .obj [("name", .str "Capital Agent"),
        ("description", .str "Answers capital-city questions for any country"),
        ("version", .str "1.0.0"),
        ("url", .str "http://127.0.0.1:8000/api/chat"),
        ("preferredTransport", .str "JSONRPC"),
        ("protocolVersion", .str "0.3.0"),
        ("capabilities", .obj [("streaming", .bool true)]),
        ("defaultInputModes", .arr [.str "text"]),
        ("defaultOutputModes", .arr [.str "text"]),
        ("skills", .arr [.obj [
          ("id", .str "capital_query"),
          ("name", .str "capital_query"),
          ("description", .str "Answers capital-city questions"),
          ("inputModes", .arr [.str "text"]),
          ("outputModes", .arr [.str "text"]),
          ("tags", .arr [.str "capital", .str "country"])]])]

/-- `function_app.get_agent_card` (src/function_app.py lines 29-64): a
200 JSON response with the static card and the permissive CORS header. -/
def get_agent_card_fa : HttpResp := ⟨200, agentCard_fa, chatHeaders⟩

/-- `local_agent.get_agent_card` (src/local_agent.py lines 77-100): a
`JSONResponse` (default status 200) with the static card and the
permissive CORS header. -/
def get_agent_card_la : HttpResp := ⟨200, agentCard_la, chatHeaders⟩

/-- Whether the first character list starts with the second. -/
def startsWithChars : List Char → List Char → Bool
  | _, [] => true
  | [], _ :: _ => false
  | a :: as, b :: bs => a == b && startsWithChars as bs

/-- Python substring containment `sub in s`, over character lists. -/
def hasSubstr : List Char → List Char → Bool
  | s, sub =>
    if startsWithChars s sub then true
    else
      match s with
      | [] => false
      | _ :: rest => hasSubstr rest sub

/-- `getagentcard.main` (src/getagentcard/__init__.py lines 5-12): on a
GET whose URL contains the discovery path, serve the card loaded from
the `agent-card.json` file (a parameter here: the file is not part of
the repository sources) as JSON — setting no CORS header; otherwise
respond 404 "Not Found". -/
def getagentcard_main (method url : String) (fileCard : Json) : HttpResp :=
  if method == "GET" && hasSubstr url.toList "/.well-known/agent-card.json".toList
  then ⟨200, fileCard, [("Content-Type", "application/json")]⟩
  else ⟨404, .str "Not Found", []⟩

/-- A run status is terminal when it is `completed`, `failed` or
`cancelled`. -/
def isTerminalStatus (s : String) : Bool :=
  s == "completed" || s == "failed" || s == "cancelled"

/-- The JSON-RPC envelope invariant: `jsonrpc` is `"2.0"` and exactly
one of `result` / `error` is present. -/
def envelopeOk (b : Json) : Bool :=
  b.getStrEq "jsonrpc" "2.0" && (b.hasKey "result" != b.hasKey "error")

/-- The numeric error code of an error envelope, when present. -/
def errCodeOf (b : Json) : Option Int :=
  match b.get? "error" with
  | some e =>
    match e.get? "code" with
    | some (.num c) => some c
    | _ => none
  | _ => none

/-- Every skill entry of a card has a non-empty string `id` and a
non-empty `tags` list. -/
def skillsNonEmpty (card : Json) : Bool :=
  match card.get? "skills" with
  | some (.arr sk) => sk.all (fun s =>
      (match s.get? "id" with
       | some (.str i) => !(i == "")
       | _ => false) &&
      (match s.get? "tags" with
       | some (.arr ts) => !ts.isEmpty
       | _ => false))
  | _ => false

/-- Relation between a poll-loop outcome and the last `get_run_status`
observation it exited on: the loop only stops on `completed`, on a
non-`completed` terminal status, or on an HTTP failure. -/
def pollExitObs (o : PollOutcome) (x : Except String String) : Prop :=
  match o with
  | .completed => x = Except.ok "completed"
  | .runFailed s => x = Except.ok s ∧ isTerminalStatus s = true ∧ s ≠ "completed"
  | .httpFailed e => x = Except.error e

/-- View of the validation prefix of `function_app.chat`: the request is
a dict with `jsonrpc` equal to `"2.0"`, has `method` and `id` keys, and
the method is one of the two supported names. -/
def validRequest_fa (payload : Json) : Bool :=
  payload.isObj && payload.getStrEq "jsonrpc" "2.0" &&
  payload.hasKey "method" && payload.hasKey "id" &&
  (((payload.get? "method").getD .null).eqStr "sendMessage" ||
   ((payload.get? "method").getD .null).eqStr "message/send")

/-- View of the validation prefix of `local_agent.chat`: the request is
a dict with `jsonrpc` equal to `"2.0"` and a supported method name (no
`id` requirement). -/
def validRequest_la (payload : Json) : Bool :=
  payload.isObj && payload.getStrEq "jsonrpc" "2.0" &&
  (((payload.get? "method").getD .null).eqStr "message/send" ||
   ((payload.get? "method").getD .null).eqStr "sendMessage")

/-- View of the `params → message → parts` navigation shared by both
handlers: `some parts` when `params` and `message` are dicts (or absent,
defaulting to `{}`) and the `parts` value is iterable; `none` when the
handler would crash on the way. -/
def partsOf (payload : Json) : Option (List Json) :=
  let params := (payload.get? "params").getD (.obj [])
  if !params.isObj then none
  else
    let message := (params.get? "message").getD (.obj [])
    if !message.isObj then none
    else ((message.get? "parts").getD (.arr [])).iterate?

/-- A remote environment for a successful turn: statuses
`queued → in_progress → completed`, reply "Paris". -/
def env0 : RemoteEnv :=
  ⟨.ok "t1", .ok (), .ok "r1",
   [.ok "queued", .ok "in_progress", .ok "completed"],
   .ok [⟨"user", ["What is the capital of France?"]⟩, ⟨"assistant", ["Paris"]⟩]⟩

/-- A remote environment whose very first call (`POST /threads`) fails
with a non-success HTTP status. -/
def envThreadFail : RemoteEnv :=
  ⟨.error "404 Client Error: Not Found", .ok (), .ok "r1", [.ok "completed"], .ok []⟩

/-- A remote environment whose run ends in the terminal status
`failed` after one non-terminal observation. -/
def envRunFailed : RemoteEnv :=
  ⟨.ok "t1", .ok (), .ok "r1", [.ok "queued", .ok "failed"], .ok []⟩

/-- A well-formed request whose message parts use the `"type"` tag (the
key `function_app.chat` consults). -/
def typeBody : Json :=
  .obj [("jsonrpc", .str "2.0"), ("method", .str "message/send"), ("id", .str "1"),
        ("params", .obj [("message", .obj [("role", .str "user"),
          ("parts", .arr [.obj [("type", .str "text"),
                                ("text", .str "What is the capital of France?")]]),
          ("messageId", .str "m1")])])]

/-- A well-formed request whose message parts use the `"kind"` tag (the
key `local_agent.chat` consults, and the one the A2A examples use). -/
def kindBody : Json :=
  .obj [("jsonrpc", .str "2.0"), ("method", .str "message/send"), ("id", .str "1"),
        ("params", .obj [("message", .obj [("role", .str "user"),
          ("parts", .arr [.obj [("kind", .str "text"),
                                ("text", .str "What is the capital of France?")]]),
          ("messageId", .str "m1")])])]

/-- A request whose first `"type"`-tagged text part has empty text while
a later text part carries non-empty text. -/
def emptyThenTextBody : Json :=
  .obj [("jsonrpc", .str "2.0"), ("method", .str "message/send"), ("id", .str "1"),
        ("params", .obj [("message", .obj [("role", .str "user"),
          ("parts", .arr [.obj [("type", .str "text"), ("text", .str "")],
                          .obj [("type", .str "text"), ("text", .str "hi")]]),
          ("messageId", .str "m1")])])]

/-- View of the `message` object navigated to by both handlers:
`payload.get("params", {}).get("message", {})`. -/
def messageOf (payload : Json) : Json :=
  (((payload.get? "params").getD (.obj [])).get? "message").getD (.obj [])

theorem envelopeOk_errBody (c : Int) (m : String) (i : Json) :
    envelopeOk (jsonrpcErrorBody c m i) = true := rfl

theorem errBody_id (c : Int) (m : String) (i : Json) :
    (jsonrpcErrorBody c m i).get? "id" = some i := rfl

theorem errCodeOf_errBody (c : Int) (m : String) (i : Json) :
    errCodeOf (jsonrpcErrorBody c m i) = some c := rfl

theorem envelopeOk_successFa (t : String) (i : Json) :
    envelopeOk (successBody_fa t i) = true := rfl

theorem successFa_id (t : String) (i : Json) :
    (successBody_fa t i).get? "id" = some i := rfl

theorem errCodeOf_successFa (t : String) (i : Json) :
    errCodeOf (successBody_fa t i) = none := rfl

theorem envelopeOk_successLa (t : String) (i c : Json) (a b : String) :
    envelopeOk (successBody_la t i c a b) = true := rfl

theorem successLa_id (t : String) (i c : Json) (a b : String) :
    (successBody_la t i c a b).get? "id" = some i := rfl

theorem errCodeOf_successLa (t : String) (i c : Json) (a b : String) :
    errCodeOf (successBody_la t i c a b) = none := rfl

theorem pollRun_fa_first_terminal :
    ∀ (k : Nat) (sts : List (Except String String)) (t : String),
    (∀ i, i < k → ∃ s, sts[i]? = some (.ok s) ∧ isTerminalStatus s = false) →
    sts[k]? = some (.ok t) → isTerminalStatus t = true →
    pollRun_fa sts =
      some ⟨if t == "completed" then .completed else .runFailed t, k + 1, 15 * k⟩ := by
  intro k
  induction k with
  | zero =>
    intro sts t _ hk ht
    match sts with
    | [] => simp at hk
    | x :: rest =>
      simp at hk
      subst hk
      by_cases hc : (t == "completed") = true
      · simp [pollRun_fa, hc]
      · have hc' : ¬ t = "completed" := by simpa using hc
        have hbc : (t == "failed" || t == "cancelled") = true := by
          simp [isTerminalStatus] at ht
          rcases ht with (h | h) | h
          · exact absurd h hc'
          · simp [h]
          · simp [h]
        simp [pollRun_fa, hc, hbc]
  | succ k ih =>
    intro sts t hlt hk ht
    match sts with
    | [] => simp at hk
    | x :: rest =>
      obtain ⟨s0, hs0, hnt⟩ := hlt 0 (Nat.succ_pos k)
      simp at hs0
      subst hs0
      simp [isTerminalStatus] at hnt
      have h1 : (s0 == "completed") = false := by simp [hnt.1.1]
      have h2 : (s0 == "failed" || s0 == "cancelled") = false := by
        simp [hnt.1.2, hnt.2]
      have hrest : pollRun_fa rest =
          some ⟨if t == "completed" then .completed else .runFailed t, k + 1, 15 * k⟩ := by
        apply ih rest t
        · intro i hi
          have := hlt (i + 1) (Nat.succ_lt_succ hi)
          simpa using this
        · simpa using hk
        · exact ht
      simp [pollRun_fa, h1, h2, hrest, Nat.mul_succ]

theorem pollRun_fa_exit_sound :
    ∀ (sts : List (Except String String)) (r : PollResult),
    pollRun_fa sts = some r →
    1 ≤ r.polls ∧ ∃ x, sts[r.polls - 1]? = some x ∧ pollExitObs r.outcome x := by
  intro sts
  induction sts with
  | nil => intro r h; simp [pollRun_fa] at h
  | cons x rest ih =>
    intro r h
    match x with
    | .error e =>
      simp [pollRun_fa] at h
      subst h
      exact ⟨le_refl 1, Except.error e, by simp, by simp [pollExitObs]⟩
    | .ok s =>
      by_cases hc : (s == "completed") = true
      · simp [pollRun_fa, hc] at h
        subst h
        refine ⟨le_refl 1, Except.ok s, by simp, ?_⟩
        simp at hc
        simp [pollExitObs, hc]
      · by_cases hf : (s == "failed" || s == "cancelled") = true
        · simp [pollRun_fa, hc, hf] at h
          subst h
          refine ⟨le_refl 1, Except.ok s, by simp, ?_⟩
          simp at hc hf
          simp [pollExitObs, isTerminalStatus, hc, hf]
        · simp [pollRun_fa, hc, hf] at h
          match hrec : pollRun_fa rest with
          | none => rw [hrec] at h; simp at h
          | some r0 =>
            rw [hrec] at h
            simp at h
            obtain ⟨h1, hx, hget, hobs⟩ := ih r0 hrec
            subst h
            refine ⟨by simp, hx, ?_, hobs⟩
            simp only
            have heq : r0.polls + 1 - 1 = (r0.polls - 1) + 1 := by omega
            rw [heq]
            simpa using hget

theorem pollRun_fa_eq_la : ∀ sts, pollRun_fa sts = pollRun_la sts := by
  intro sts
  induction sts with
  | nil => rfl
  | cons x rest ih =>
    match x with
    | .error e => rfl
    | .ok s => simp [pollRun_fa, pollRun_la, ih]

theorem runRemote_fa_eq_la : ∀ t env, runRemote_fa t env = runRemote_la t env := by
  intro t env
  unfold runRemote_fa runRemote_la
  rw [pollRun_fa_eq_la]

theorem errBody_hasKey_jsonrpc (c : Int) (m : String) (i : Json) :
    (jsonrpcErrorBody c m i).hasKey "jsonrpc" = true := rfl

theorem successFa_hasKey_jsonrpc (t : String) (i : Json) :
    (successBody_fa t i).hasKey "jsonrpc" = true := rfl

theorem successLa_hasKey_jsonrpc (t : String) (i c : Json) (a b : String) :
    (successBody_la t i c a b).hasKey "jsonrpc" = true := rfl

theorem chat_fa_glue :
    ∀ payload env parts,
    validRequest_fa payload = true → partsOf payload = some parts →
    chat_fa (some payload) env =
      (if (extractText_fa parts).truthy = false then
        some (errOut (-32602) "Invalid params: no valid text part"
          ((payload.get? "id").getD .null), [])
       else
        match runRemote_fa (extractText_fa parts) env with
        | none => none
        | some (.error e, tr) =>
          some (errOut (-32000) e ((payload.get? "id").getD .null), tr)
        | some (.ok reply, tr) =>
          some (.resp ⟨200, successBody_fa reply ((payload.get? "id").getD .null),
            chatHeaders⟩, tr)) := by
  intro payload env parts hv hp
  simp only [validRequest_fa, Bool.and_eq_true, Bool.or_eq_true] at hv
  obtain ⟨⟨⟨⟨h1, h2⟩, h3⟩, h4⟩, h5⟩ := hv
  simp only [partsOf] at hp
  repeat' split at hp
  all_goals simp_all [chat_fa]
  all_goals (intro ha hb; rcases h5 with h5 | h5 <;> simp_all)

theorem chat_la_glue :
    ∀ payload env a b c parts u,
    validRequest_la payload = true → partsOf payload = some parts →
    extractText_la parts = .ok u →
    chat_la (some payload) env a b c =
      (if u.truthy = false then
        some (errOut (-32602) "No valid text part" ((payload.get? "id").getD .null), [])
       else
        match runRemote_la u env with
        | none => none
        | some (.error e, tr) =>
          some (errOut (-32000) e ((payload.get? "id").getD .null), tr)
        | some (.ok reply, tr) =>
          some (.resp ⟨200,
            successBody_la reply ((payload.get? "id").getD .null)
              (if (((messageOf payload).get? "contextId").getD .null).truthy
               then ((messageOf payload).get? "contextId").getD .null
               else .str c)
              a b,
            chatHeaders⟩, tr)) := by
  intro payload env a b c parts u hv hp hu
  simp only [validRequest_la, Bool.and_eq_true, Bool.or_eq_true] at hv
  obtain ⟨⟨h1, h2⟩, h5⟩ := hv
  simp only [partsOf] at hp
  repeat' split at hp
  all_goals simp_all [chat_la, messageOf]
  all_goals (intro ha hb; rcases h5 with h5 | h5 <;> simp_all)

theorem extractText_fa_find :
    ∀ parts, extractText_fa parts =
      (match parts.find? (fun p => p.isObj && p.getStrEq "type" "text" && p.hasKey "text") with
       | some p => (p.get? "text").getD .null
       | none => .str "") := by
  intro parts
  induction parts with
  | nil => rfl
  | cons p rest ih =>
    by_cases hc : (p.isObj && p.getStrEq "type" "text" && p.hasKey "text") = true
    · simp [extractText_fa, List.find?_cons, hc]
    · simp only [Bool.not_eq_true] at hc
      simp [extractText_fa, List.find?_cons, hc, ih]

theorem extractText_la_find :
    ∀ parts, (∀ p ∈ parts, p.isObj = true) →
    extractText_la parts =
      .ok (match parts.find? (fun p => p.getStrEq "kind" "text" && ((p.get? "text").getD .null).truthy) with
       | some p => (p.get? "text").getD .null
       | none => .str "") := by
  intro parts
  induction parts with
  | nil => intro _; rfl
  | cons p rest ih =>
    intro hobj
    have hp : p.isObj = true := hobj p (List.mem_cons_self p rest)
    by_cases hc : (p.getStrEq "kind" "text" && ((p.get? "text").getD .null).truthy) = true
    · simp [extractText_la, List.find?_cons, hp, hc]
    · simp only [Bool.not_eq_true] at hc
      have := ih (fun q hq => hobj q (List.mem_cons_of_mem p hq))
      simp [extractText_la, List.find?_cons, hp, hc, this]

/-- C1 counterexample: a message whose first type-tagged part has empty
text and whose second type-tagged part has the non-empty text "hi" — so
a textual part with non-empty text exists — is nevertheless answered by
`function_app.chat` with the -32602 error envelope, because its scan
stops at the first part that merely has a `"text"` key.  This refutes
the claim that the extraction selects the first textual part with
non-empty text. -/
theorem C1_counterexample :
    (messageOf emptyThenTextBody).get? "parts" =
      some (.arr [.obj [("type", .str "text"), ("text", .str "")],
                  .obj [("type", .str "text"), ("text", .str "hi")]]) ∧
    List.any [Json.obj [("type", Json.str "text"), ("text", Json.str "")],
              Json.obj [("type", Json.str "text"), ("text", Json.str "hi")]]
      (fun p => p.getStrEq "type" "text" && ((p.get? "text").getD .null).truthy) = true ∧
    chat_fa (some emptyThenTextBody) env0 =
      some (errOut (-32602) "Invalid params: no valid text part" (.str "1"), []) :=
  ⟨rfl, rfl, rfl⟩

/-- C1 (amended): the standalone-service extractor returns the text of
the first part whose `kind` tag is `"text"` and whose text is truthy,
and the serverless extractor stops at the first dict part whose `type`
tag is `"text"` and that contains a `"text"` key — even when that text
is empty; each chat handler answers -32602 exactly when its extractor
leaves the text untruthy. -/
theorem C1_theorem :
    (∀ parts, extractText_fa parts =
      (match parts.find? (fun p => p.isObj && p.getStrEq "type" "text" && p.hasKey "text") with
       | some p => (p.get? "text").getD .null
       | none => .str "")) ∧
    (∀ parts, (∀ p ∈ parts, p.isObj = true) →
      extractText_la parts =
        .ok (match parts.find? (fun p => p.getStrEq "kind" "text" && ((p.get? "text").getD .null).truthy) with
         | some p => (p.get? "text").getD .null
         | none => .str "")) ∧
    (∀ payload env parts, validRequest_fa payload = true → partsOf payload = some parts →
      (extractText_fa parts).truthy = false →
      chat_fa (some payload) env =
        some (errOut (-32602) "Invalid params: no valid text part"
          ((payload.get? "id").getD .null), [])) ∧
    (∀ payload env a b c parts u, validRequest_la payload = true → partsOf payload = some parts →
      extractText_la parts = .ok u → u.truthy = false →
      chat_la (some payload) env a b c =
        some (errOut (-32602) "No valid text part" ((payload.get? "id").getD .null), [])) := by
  refine ⟨extractText_fa_find, extractText_la_find, ?_, ?_⟩
  · intro payload env parts hv hp ht
    rw [chat_fa_glue payload env parts hv hp]
    simp [ht]
  · intro payload env a b c parts u hv hp hu ht
    rw [chat_la_glue payload env a b c parts u hv hp hu]
    simp [ht]

/-- C1 witness: concrete -32602 responses from both handlers obtained
through `C1_theorem` (a kind-tagged part is invisible to the serverless
handler; an empty-then-nonempty type-tagged pair trips the standalone
handler, which looks for kind tags). -/
theorem C1_witness :
    chat_fa (some kindBody) env0 =
      some (errOut (-32602) "Invalid params: no valid text part" (.str "1"), []) ∧
    chat_la (some emptyThenTextBody) env0 "T" "M" "C" =
      some (errOut (-32602) "No valid text part" (.str "1"), []) := by
  constructor
  · exact C1_theorem.2.2.1 kindBody env0
      [.obj [("kind", .str "text"), ("text", .str "What is the capital of France?")]]
      rfl rfl rfl
  · exact C1_theorem.2.2.2 emptyThenTextBody env0 "T" "M" "C"
      [.obj [("type", .str "text"), ("text", .str "")],
       .obj [("type", .str "text"), ("text", .str "hi")]]
      (.str "") rfl rfl rfl rfl

/-- C2 (confirmed): when the first terminal status appears at position k
after k non-terminal ok observations, both poll loops make exactly k+1
status polls (one per non-terminal observation plus the terminal one),
sleep the fixed 1.5 seconds exactly once per non-terminal observation
(15 tenths each, 15k total), return control on `"completed"`, and end
with a Run-Failed outcome carrying the terminal status string on
`"failed"` or `"cancelled"`. -/
theorem C2_theorem :
    ∀ (sts : List (Except String String)) (k : Nat) (t : String),
    (∀ i, i < k → ∃ s, sts[i]? = some (.ok s) ∧ isTerminalStatus s = false) →
    sts[k]? = some (.ok t) → isTerminalStatus t = true →
    pollRun_fa sts =
      some ⟨if t == "completed" then .completed else .runFailed t, k + 1, 15 * k⟩ ∧
    pollRun_la sts =
      some ⟨if t == "completed" then .completed else .runFailed t, k + 1, 15 * k⟩ := by
  intro sts k t h1 h2 h3
  have h := pollRun_fa_first_terminal k sts t h1 h2 h3
  exact ⟨h, (pollRun_fa_eq_la sts) ▸ h⟩

/-- C2 witness: the sequence queued → in_progress → completed gives
exactly 3 polls and 2 sleeps (30 tenths) in both implementations. -/
theorem C2_witness :
    pollRun_fa [.ok "queued", .ok "in_progress", .ok "completed"] =
      some ⟨.completed, 3, 30⟩ ∧
    pollRun_la [.ok "queued", .ok "in_progress", .ok "completed"] =
      some ⟨.completed, 3, 30⟩ := by
  have h := C2_theorem [.ok "queued", .ok "in_progress", .ok "completed"] 2 "completed"
    (by intro i hi
        interval_cases i
        · exact ⟨"queued", rfl, rfl⟩
        · exact ⟨"in_progress", rfl, rfl⟩)
    rfl rfl
  simpa using h

/-- C3 counterexample: a request object carrying `jsonrpc "1.0"` and the
id `"42"` — so the id is determinable — is answered by
`function_app.chat` with an error envelope whose id is null, refuting
the claim that the id is echoed whenever it can be determined. -/
theorem C3_counterexample :
    (Json.obj [("jsonrpc", .str "1.0"), ("id", .str "42")]).get? "id" = some (.str "42") ∧
    chat_fa (some (.obj [("jsonrpc", .str "1.0"), ("id", .str "42")])) env0 =
      some (errOut (-32600) "Invalid JSON-RPC version" .null, []) := ⟨rfl, rfl⟩

/-- C3 (amended): every response envelope of both chat handlers has
`jsonrpc "2.0"` and exactly one of `result`/`error`; the standalone
handler always carries the request id (null after a parse failure,
where no id is determinable); the serverless handler does the same
except on its -32600 invalid-request errors, which carry id null even
when the request object contains an id. -/
theorem C3_theorem :
    (∀ body env r tr, chat_fa body env = some (.resp r, tr) →
      envelopeOk r.body = true ∧
      (match body with
       | none => r.body.get? "id" = some .null ∧ errCodeOf r.body = some (-32700)
       | some payload =>
           r.body.get? "id" = some ((payload.get? "id").getD .null) ∨
           (r.body.get? "id" = some .null ∧ errCodeOf r.body = some (-32600)))) ∧
    (∀ body env a b c r tr, chat_la body env a b c = some (.resp r, tr) →
      envelopeOk r.body = true ∧
      (match body with
       | none => r.body.get? "id" = some .null
       | some payload => r.body.get? "id" = some ((payload.get? "id").getD .null))) := by
  constructor
  · intro body env r tr h
    cases body with
    | none =>
      simp only [chat_fa] at h
      simp_all [errOut]
      obtain ⟨h1, h2⟩ := h
      subst h1
      exact ⟨rfl, rfl, rfl⟩
    | some payload =>
      simp only [chat_fa] at h
      repeat' split at h
      all_goals simp_all [errOut]
      all_goals obtain ⟨h1, h2⟩ := h
      all_goals subst h1
      all_goals simp [envelopeOk_errBody, errBody_id, errCodeOf_errBody,
        envelopeOk_successFa, successFa_id]
  · intro body env a b c r tr h
    cases body with
    | none =>
      simp only [chat_la] at h
      simp_all [errOut]
      obtain ⟨h1, h2⟩ := h
      subst h1
      exact ⟨rfl, rfl⟩
    | some payload =>
      simp only [chat_la] at h
      repeat' split at h
      all_goals simp_all [errOut]
      all_goals obtain ⟨h1, h2⟩ := h
      all_goals subst h1
      all_goals simp [envelopeOk_errBody, errBody_id,
        envelopeOk_successLa, successLa_id]

/-- C3 witness: the envelope invariant instantiated at the serverless
success response for a well-formed request. -/
theorem C3_witness :
    envelopeOk (successBody_fa "Paris" (.str "1")) = true ∧
    ((successBody_fa "Paris" (.str "1")).get? "id" = some ((typeBody.get? "id").getD .null) ∨
     ((successBody_fa "Paris" (.str "1")).get? "id" = some .null ∧
      errCodeOf (successBody_fa "Paris" (.str "1")) = some (-32600))) :=
  C3_theorem.1 (some typeBody) env0
    ⟨200, successBody_fa "Paris" (.str "1"), chatHeaders⟩
    [.createThread, .postMessage (.str "What is the capital of France?"),
     .startRun ASSISTANT_ID, .getRunStatus, .getRunStatus, .getRunStatus, .listMessages]
    rfl

/-- C4 counterexample: the valid-JSON body `[]`, whose top-level value
is not an object, makes `local_agent.chat` raise `AttributeError` at
`payload.get`, an unhandled fault the host surfaces as a non-200 error —
refuting the claim that every POST body is answered 200 with an
envelope. -/
theorem C4_counterexample :
    (Json.arr []).isObj = false ∧
    chat_la (some (.arr [])) env0 "T" "M" "C" = some (.crash "AttributeError", []) :=
  ⟨rfl, rfl⟩

/-- C4 (amended): whenever either chat handler constructs a response at
all it is HTTP 200 carrying a JSON-RPC envelope — unparseable bodies get
the -32700 envelope, and the serverless handler answers -32600 for
non-object top-level values — but certain malformed bodies (non-object
top-level values in the standalone handler, non-object params/message
or non-iterable parts in both) instead raise an unhandled fault,
surfaced by the host as a non-200 error. -/
theorem C4_theorem :
    (∀ env, chat_fa none env = some (errOut (-32700) "Parse error" .null, [])) ∧
    (∀ env a b c, chat_la none env a b c = some (errOut (-32700) "Parse error" .null, [])) ∧
    (∀ env j, j.isObj = false →
      chat_fa (some j) env = some (errOut (-32600) "Invalid Request" .null, [])) ∧
    (∀ body env r tr, chat_fa body env = some (.resp r, tr) →
      r.status = 200 ∧ r.body.hasKey "jsonrpc" = true) ∧
    (∀ body env a b c r tr, chat_la body env a b c = some (.resp r, tr) →
      r.status = 200 ∧ r.body.hasKey "jsonrpc" = true) := by
  refine ⟨fun env => rfl, fun env a b c => rfl, ?_, ?_, ?_⟩
  · intro env j hj
    simp [chat_fa, hj]
  · intro body env r tr h
    simp only [chat_fa] at h
    repeat' split at h
    all_goals simp_all [errOut]
    all_goals obtain ⟨h1, h2⟩ := h
    all_goals subst h1
    all_goals exact ⟨rfl, rfl⟩
  · intro body env a b c r tr h
    simp only [chat_la] at h
    repeat' split at h
    all_goals simp_all [errOut]
    all_goals obtain ⟨h1, h2⟩ := h
    all_goals subst h1
    all_goals exact ⟨rfl, rfl⟩

/-- C4 witness: the response invariant instantiated at the serverless
parse-error response. -/
theorem C4_witness :
    (⟨200, jsonrpcErrorBody (-32700) "Parse error" .null, chatHeaders⟩ : HttpResp).status = 200 ∧
    (jsonrpcErrorBody (-32700) "Parse error" .null).hasKey "jsonrpc" = true := by
  have h := C4_theorem.2.2.2.1 none env0
    ⟨200, jsonrpcErrorBody (-32700) "Parse error" .null, chatHeaders⟩ [] rfl
  simpa using h

/-- C5 counterexample: the same well-formed request, whose one message
part is tagged with `kind "text"`, gets the -32602 error (and no remote
call) from the serverless handler but a successful remote turn with
reply "Paris" from the standalone handler — the two implementations
disagree on validation outcome, extracted text and remote-call sequence,
not merely on token acquisition and success-envelope shape. -/
theorem C5_counterexample :
    chat_fa (some kindBody) env0 =
      some (errOut (-32602) "Invalid params: no valid text part" (.str "1"), []) ∧
    chat_la (some kindBody) env0 "T" "M" "C" =
      some (.resp ⟨200, successBody_la "Paris" (.str "1") (.str "C") "T" "M", chatHeaders⟩,
        [.createThread, .postMessage (.str "What is the capital of France?"),
         .startRun ASSISTANT_ID, .getRunStatus, .getRunStatus, .getRunStatus, .listMessages]) :=
  ⟨rfl, rfl⟩

/-- C5 (amended): the shared part of the two implementations is the
remote orchestration — given the same extracted text and environment,
the create-thread/post/run/poll/list sequence, its trace and its
polling loop are extensionally identical; validation, the part tag key
consulted, id echoing and crash behaviour differ beyond token
acquisition and envelope shape, as the counterexample shows. -/
theorem C5_theorem :
    (∀ t env, runRemote_fa t env = runRemote_la t env) ∧
    (∀ sts, pollRun_fa sts = pollRun_la sts) :=
  ⟨runRemote_fa_eq_la, pollRun_fa_eq_la⟩

/-- C6 (confirmed): for a request that passes validation and text
extraction, any failing remote phase — a non-success HTTP call or a
terminal failed/cancelled run, both reported by the orchestration as an
error message — ends the turn with the -32000 error envelope carrying
that message and the echoed request id, as a constructed 200 response
(no unhandled fault). -/
theorem C6_theorem :
    (∀ payload env parts e tr,
      validRequest_fa payload = true → partsOf payload = some parts →
      (extractText_fa parts).truthy = true →
      runRemote_fa (extractText_fa parts) env = some (.error e, tr) →
      chat_fa (some payload) env =
        some (errOut (-32000) e ((payload.get? "id").getD .null), tr)) ∧
    (∀ payload env a b c parts u e tr,
      validRequest_la payload = true → partsOf payload = some parts →
      extractText_la parts = .ok u → u.truthy = true →
      runRemote_la u env = some (.error e, tr) →
      chat_la (some payload) env a b c =
        some (errOut (-32000) e ((payload.get? "id").getD .null), tr)) := by
  constructor
  · intro payload env parts e tr hv hp ht hr
    rw [chat_fa_glue payload env parts hv hp]
    simp [ht, hr]
  · intro payload env a b c parts u e tr hv hp hu ht hr
    rw [chat_la_glue payload env a b c parts u hv hp hu]
    simp [ht, hr]

/-- C6 witness: a failing thread creation surfaces its HTTP error text
in a -32000 envelope from the serverless handler, and a run ending in
the terminal status `failed` surfaces "Run failed" in a -32000 envelope
from the standalone handler. -/
theorem C6_witness :
    chat_fa (some typeBody) envThreadFail =
      some (errOut (-32000) "404 Client Error: Not Found" (.str "1"), [.createThread]) ∧
    chat_la (some kindBody) envRunFailed "T" "M" "C" =
      some (errOut (-32000) "Run failed" (.str "1"),
        [.createThread, .postMessage (.str "What is the capital of France?"),
         .startRun ASSISTANT_ID, .getRunStatus, .getRunStatus]) := by
  constructor
  · exact C6_theorem.1 typeBody envThreadFail
      [.obj [("type", .str "text"), ("text", .str "What is the capital of France?")]]
      "404 Client Error: Not Found" [.createThread] rfl rfl rfl rfl
  · exact C6_theorem.2 kindBody envRunFailed "T" "M" "C"
      [.obj [("kind", .str "text"), ("text", .str "What is the capital of France?")]]
      (.str "What is the capital of France?")
      "Run failed"
      [.createThread, .postMessage (.str "What is the capital of France?"),
       .startRun ASSISTANT_ID, .getRunStatus, .getRunStatus]
      rfl rfl rfl rfl rfl

/-- C7 (confirmed): any object body whose `jsonrpc` value is missing or
differs from "2.0" is answered by both handlers with a constructed 200
response carrying the -32600 error envelope, before any remote call. -/
theorem C7_theorem :
    ∀ payload env a b c, payload.isObj = true →
    payload.getStrEq "jsonrpc" "2.0" = false →
    chat_fa (some payload) env =
      some (errOut (-32600) "Invalid JSON-RPC version" .null, []) ∧
    chat_la (some payload) env a b c =
      some (errOut (-32600) "Invalid JSON-RPC version" ((payload.get? "id").getD .null), []) := by
  intro payload env a b c h1 h2
  constructor
  · simp [chat_fa, h1, h2]
  · simp [chat_la, h1, h2]

/-- C7 witness: a body with `jsonrpc "1.0"` gets the -32600 envelope
from both handlers. -/
theorem C7_witness :
    chat_fa (some (.obj [("jsonrpc", .str "1.0"), ("id", .str "7")])) env0 =
      some (errOut (-32600) "Invalid JSON-RPC version" .null, []) ∧
    chat_la (some (.obj [("jsonrpc", .str "1.0"), ("id", .str "7")])) env0 "T" "M" "C" =
      some (errOut (-32600) "Invalid JSON-RPC version" (.str "7"), []) :=
  C7_theorem (.obj [("jsonrpc", .str "1.0"), ("id", .str "7")]) env0 "T" "M" "C" rfl rfl

/-- C8 (confirmed): if a terminal status first appears at position k of
the status sequence, both polling loops stop after exactly k+1
`get_run_status` calls; and conversely, whenever the loop stops, the
observation it stopped on was `"completed"`, a non-completed terminal
status, or an HTTP failure — never a non-terminal status. -/
theorem C8_theorem :
    (∀ (sts : List (Except String String)) (k : Nat) (t : String),
      (∀ i, i < k → ∃ s, sts[i]? = some (.ok s) ∧ isTerminalStatus s = false) →
      sts[k]? = some (.ok t) → isTerminalStatus t = true →
      ∃ r, pollRun_fa sts = some r ∧ pollRun_la sts = some r ∧ r.polls = k + 1) ∧
    (∀ sts r, pollRun_fa sts = some r →
      1 ≤ r.polls ∧ ∃ x, sts[r.polls - 1]? = some x ∧ pollExitObs r.outcome x) := by
  constructor
  · intro sts k t h1 h2 h3
    refine ⟨_, pollRun_fa_first_terminal k sts t h1 h2 h3, ?_, rfl⟩
    rw [← pollRun_fa_eq_la]
    exact pollRun_fa_first_terminal k sts t h1 h2 h3
  · exact pollRun_fa_exit_sound

/-- C8 witness: the sequence queued → failed terminates both loops
after exactly 2 polls. -/
theorem C8_witness :
    ∃ r, pollRun_fa [.ok "queued", .ok "failed"] = some r ∧
         pollRun_la [.ok "queued", .ok "failed"] = some r ∧ r.polls = 2 :=
  C8_theorem.1 [.ok "queued", .ok "failed"] 1 "failed"
    (by intro i hi
        interval_cases i
        exact ⟨"queued", rfl, rfl⟩)
    rfl rfl

/-- C9 counterexample: the file-backed discovery handler
(`getagentcard.main`) serves a GET to the discovery path with status 200
but sets no Access-Control-Allow-Origin header, refuting the claim that
every discovery response carries the permissive cross-origin header. -/
theorem C9_counterexample :
    (getagentcard_main "GET" "https://host/api/chat/.well-known/agent-card.json" agentCard_fa).status = 200 ∧
    (getagentcard_main "GET" "https://host/api/chat/.well-known/agent-card.json" agentCard_fa).headers.lookup
      "Access-Control-Allow-Origin" = none := ⟨rfl, rfl⟩

/-- C9 (amended): the two inline discovery handlers serve their static
card — in which every skill has a non-empty id and non-empty tags — as
200 JSON with `Access-Control-Allow-Origin: *`; the file-backed handler
serves whatever card the file holds as 200 JSON for any GET whose URL
contains the discovery path, with no cross-origin header. -/
theorem C9_theorem :
    (skillsNonEmpty agentCard_fa = true ∧ get_agent_card_fa.status = 200 ∧
     get_agent_card_fa.body = agentCard_fa ∧
     get_agent_card_fa.headers.lookup "Access-Control-Allow-Origin" = some "*" ∧
     get_agent_card_fa.headers.lookup "Content-Type" = some "application/json") ∧
    (skillsNonEmpty agentCard_la = true ∧ get_agent_card_la.status = 200 ∧
     get_agent_card_la.body = agentCard_la ∧
     get_agent_card_la.headers.lookup "Access-Control-Allow-Origin" = some "*" ∧
     get_agent_card_la.headers.lookup "Content-Type" = some "application/json") ∧
    (∀ url card, hasSubstr url.toList "/.well-known/agent-card.json".toList = true →
      getagentcard_main "GET" url card =
        ⟨200, card, [("Content-Type", "application/json")]⟩) := by
  refine ⟨⟨rfl, rfl, rfl, rfl, rfl⟩, ⟨rfl, rfl, rfl, rfl, rfl⟩, ?_⟩
  intro url card h
  simp at h
  simp [getagentcard_main, h]

/-- C9 witness: the file-backed handler instantiated at a concrete
discovery URL. -/
theorem C9_witness :
    getagentcard_main "GET" "http://localhost/x/.well-known/agent-card.json" agentCard_la =
      ⟨200, agentCard_la, [("Content-Type", "application/json")]⟩ :=
  C9_theorem.2.2 "http://localhost/x/.well-known/agent-card.json" agentCard_la (by decide)

/-- C10 (confirmed): any response whose error code is one of the
validation codes -32700, -32600, -32601, -32602 is produced with an
empty remote-call trace — no thread is created, no message posted, no
run started before a validation error is returned, in either
implementation. -/
theorem C10_theorem :
    (∀ body env r tr c, chat_fa body env = some (.resp r, tr) →
      errCodeOf r.body = some c →
      (c = -32700 ∨ c = -32600 ∨ c = -32601 ∨ c = -32602) → tr = []) ∧
    (∀ body env a b c0 r tr c, chat_la body env a b c0 = some (.resp r, tr) →
      errCodeOf r.body = some c →
      (c = -32700 ∨ c = -32600 ∨ c = -32601 ∨ c = -32602) → tr = []) := by
  constructor
  · intro body env r tr c h hc hmem
    simp only [chat_fa] at h
    repeat' split at h
    all_goals simp_all [errOut]
    all_goals obtain ⟨h1, h2⟩ := h
    all_goals subst h1
    all_goals first
      | exact h2
      | exact h2.symm
      | (simp [errCodeOf_errBody] at hc
         rcases hmem with hm | hm | hm | hm <;> omega)
      | (simp [errCodeOf_successFa] at hc)
  · intro body env a b c0 r tr c h hc hmem
    simp only [chat_la] at h
    repeat' split at h
    all_goals simp_all [errOut]
    all_goals obtain ⟨h1, h2⟩ := h
    all_goals subst h1
    all_goals first
      | exact h2
      | exact h2.symm
      | (simp [errCodeOf_errBody] at hc
         rcases hmem with hm | hm | hm | hm <;> omega)
      | (simp [errCodeOf_successLa] at hc)

/-- C10 witness: the -32600 response to a wrong-version request is
produced with an empty remote trace. -/
theorem C10_witness :
    chat_fa (some (.obj [("jsonrpc", .str "1.0")])) env0 =
      some (.resp ⟨200, jsonrpcErrorBody (-32600) "Invalid JSON-RPC version" .null, chatHeaders⟩, []) ∧
    ([] : List RemoteOp) = [] :=
  ⟨rfl, C10_theorem.1 (some (.obj [("jsonrpc", .str "1.0")])) env0
    ⟨200, jsonrpcErrorBody (-32600) "Invalid JSON-RPC version" .null, chatHeaders⟩ [] (-32600)
    rfl rfl (Or.inr (Or.inl rfl))⟩
